import Mathlib

/-!
# Verification of the car-classification normalization and rarity-scoring engine

Shallow embedding of `api/classify.js` (the normalization / rarity pipeline
version, together with the earlier handler variant that carries `clamp01` and
the `year_range` parsing step).  JavaScript values flowing through the record
are modelled by `JSVal`; JS numbers are modelled by exact rationals `ℚ`
(floating-point rounding is not modelled; every concrete computation below
stays far from any threshold where a sub-ulp difference could flip a branch).
JS `TypeError`s (e.g. `(5).toLowerCase()`) are modelled with `Except JsErr`.
-/

set_option maxHeartbeats 1000000

-- Batteries marks the `Rat` arithmetic operations `@[irreducible]`, which
-- blocks `decide` on concrete rational computations; restore reducibility so
-- concrete runs of the embedded pipeline evaluate inside proofs.
set_option allowUnsafeReducibility true
attribute [semireducible] Rat.add Rat.mul Rat.inv Rat.sub Rat.ofScientific

/-- A JavaScript value as it can occur in a field of the raw record coming
back from the classification oracle: string, finite number, boolean, `null`,
or missing (`undefined`). -/
inductive JSVal where
  | str (s : String)
  | num (q : ℚ)
  | bool (b : Bool)
  | null
  | absent
  deriving DecidableEq, Repr

/-- JavaScript truthiness for the modelled values: `""`, `0`, `false`,
`null` and `undefined` are falsy, everything else is truthy. -/
def truthy : JSVal → Bool
  | .str s => s ≠ ""
  | .num q => q ≠ 0
  | .bool b => b
  | .null => false
  | .absent => false

/-- Encode an optional number the way the JS code stores it back into the
record: `null` for absence. -/
def jnum : Option ℚ → JSVal
  | some q => .num q
  | none => .null

/-- Encode an optional string the way the JS code stores it back into the
record: `null` for absence. -/
def jstr : Option String → JSVal
  | some s => .str s
  | none => .null

/-- The one JS exception the embedded code can raise: calling a string method
on a non-string (a `TypeError` at runtime). -/
inductive JsErr where
  | typeError
  deriving DecidableEq, Repr

-- ASCII case mapping (JS `toLowerCase`/`toUpperCase` restricted to ASCII,
-- which is all the keyword tables use).

/-- ASCII lower-casing of a string, character by character. -/
def asciiLower (s : String) : String := String.mk (s.toList.map Char.toLower)

/-- ASCII upper-casing of a string, character by character. -/
def asciiUpper (s : String) : String := String.mk (s.toList.map Char.toUpper)

/-- Does `l` start with `pat`? -/
def leadsWith : List Char → List Char → Bool
  | [], _ => true
  | _ :: _, [] => false
  | p :: ps, c :: cs => p = c && leadsWith ps cs

/-- Does `l` contain `pat` as a contiguous run?  Models JS
`String.prototype.includes`. -/
def listContainsSub (pat : List Char) : List Char → Bool
  | [] => pat.isEmpty
  | l@(_ :: t) => leadsWith pat l || listContainsSub pat t

/-- `containsSub s pat` models JS `s.includes(pat)`. -/
def containsSub (s pat : String) : Bool := listContainsSub pat.toList s.toList

/-- Replace the first occurrence of `a` by `b` in a character list; models the
single-replacement JS `value.replace(",", ".")`. -/
def replaceFirstChar (a b : Char) : List Char → List Char
  | [] => []
  | c :: cs => if c = a then b :: cs else c :: replaceFirstChar a b cs

/-- Numeric value of a list of decimal digit characters. -/
def natOfDigits (l : List Char) : ℕ := l.foldl (fun acc c => 10 * acc + (c.toNat - 48)) 0

/-- JS `parseFloat` restricted to strings over the alphabet `0-9 . -` (the
only characters surviving the cleaning regex): an optional leading minus
sign, then integer digits, then an optional dot with fractional digits; the
result is `none` (JS `NaN`) when no digit was consumed. -/
def parseFloatQ (cs : List Char) : Option ℚ :=
  let (neg, rest) := match cs with
    | '-' :: r => (true, r)
    | r => (false, r)
  let intPart := rest.takeWhile Char.isDigit
  let afterInt := rest.dropWhile Char.isDigit
  let fracPart := match afterInt with
    | '.' :: r2 => r2.takeWhile Char.isDigit
    | _ => []
  if intPart.isEmpty ∧ fracPart.isEmpty then none
  else
    let mag : ℚ := (natOfDigits intPart : ℚ) + (natOfDigits fracPart : ℚ) / (10 : ℚ) ^ fracPart.length
    some (if neg then -mag else mag)

/-- The string-cleaning step shared by both coercion helpers: replace the
first comma by a dot, then strip every character that is not a digit, a dot
or a minus sign. -/
def cleanNumericString (s : String) : List Char :=
  (replaceFirstChar ',' '.' s.toList).filter (fun c => c.isDigit || c = '.' || c = '-')

/-- `toNumber` from the pipeline file: accept finite numbers, parse cleaned
strings, anything else is `null`.  (`if (!normalized) return null` is the
`cleaned = []` case; `parseFloatQ []` is `none` as well.) -/
def toNumber : JSVal → Option ℚ
  | .num q => some q
  | .str s =>
    let cleaned := cleanNumericString s
    if cleaned.isEmpty then none else parseFloatQ cleaned
  | _ => none

/-- `normalizeNumber` from the earlier handler file; semantically the same
cleaning/parsing as `toNumber` but without the explicit empty-string check
(JS `parseFloat("")` is `NaN` anyway). -/
def normalizeNumber : JSVal → Option ℚ
  | .num q => some q
  | .str s => parseFloatQ (cleanNumericString s)
  | _ => none

/-- `clamp01` from the earlier handler file: coerce, then clamp into
`[0,1]`; absence propagates. -/
def clamp01 (n : JSVal) : Option ℚ :=
  match normalizeNumber n with
  | none => none
  | some v => if v < 0 then some 0 else if v > 1 then some 1 else some v

example : toNumber (.str "3.7 s") = some (37 / 10 : ℚ) := by decide
example : toNumber (.str "3,2") = some (16 / 5 : ℚ) := by decide
example : toNumber (.str "320 km/h") = some 320 := by decide
example : toNumber (.str "") = none := by decide
example : toNumber (.bool true) = none := by decide
example : clamp01 (.num 5) = some 1 := by decide
example : clamp01 (.num (-2)) = some 0 := by decide
example : clamp01 (.str "abc") = none := by decide

-- ------------------------------------------------------------------
-- The car record.  JS objects are open maps; the pipeline reads and
-- writes the fixed field set below (the fields named in the handler's
-- JSON spec plus the derived ones), so the record is modelled as a
-- structure with one `JSVal` per field.  Fields the orchestrator never
-- touches keep their raw value by construction of `normalizeCarObject`.
-- ------------------------------------------------------------------

/-- The field set of the car object flowing through the pipeline. -/
structure Car where
  make : JSVal := .absent
  model : JSVal := .absent
  generation : JSVal := .absent
  year_start : JSVal := .absent
  year_end : JSVal := .absent
  year_range : JSVal := .absent
  body_style : JSVal := .absent
  engine : JSVal := .absent
  horsepower : JSVal := .absent
  torque_nm : JSVal := .absent
  drivetrain : JSVal := .absent
  weight_kg : JSVal := .absent
  zero_to_hundred : JSVal := .absent
  top_speed_kmh : JSVal := .absent
  production_numbers : JSVal := .absent
  country : JSVal := .absent
  region : JSVal := .absent
  wiki_url : JSVal := .absent
  vehicle_category : JSVal := .absent
  prestige_class : JSVal := .absent
  engine_aspiration : JSVal := .absent
  confidence : JSVal := .absent
  is_screen_photo : JSVal := .absent
  real_world_confidence : JSVal := .absent
  frame_suspicion : JSVal := .absent
  environment : JSVal := .absent
  notes : JSVal := .absent
  rarity_score : JSVal := .absent
  rarity_tier : JSVal := .absent
  rarity_reason : JSVal := .absent
  car_slug : JSVal := .absent
  deriving DecidableEq, Repr

-- ------------------------------------------------------------------
-- Field normalizers
-- ------------------------------------------------------------------

deriving instance DecidableEq for Except

/-- The JS idiom `(v || "").toLowerCase()`: falsy values become the empty
string; a truthy non-string raises a `TypeError`. -/
def jsOrEmptyLower : JSVal → Except JsErr String
  | .str s => .ok (asciiLower s)
  | .num q => if q = 0 then .ok "" else .error .typeError
  | .bool b => if b then .error .typeError else .ok ""
  | .null => .ok ""
  | .absent => .ok ""

/-- `normalizeDrivetrain`: guarded by `!dt || typeof dt !== "string"`, so it
is total; first-match-wins keyword search on the upper-cased input. -/
def normalizeDrivetrain (dt : JSVal) : Option String :=
  match dt with
  | .str s =>
    if s = "" then none
    else
      let u := asciiUpper s
      if containsSub u "AWD" || containsSub u "4MATIC" || containsSub u "QUATTRO" then some "AWD"
      else if containsSub u "4WD" then some "4WD"
      else if containsSub u "RWD" || containsSub u "REAR" then some "RWD"
      else if containsSub u "FWD" || containsSub u "FRONT" then some "FWD"
      else none
  | _ => none

/-- `normalizeCategory`: same guard as the drivetrain normalizer, but the
fall-through case returns `"other"`, not absence. -/
def normalizeCategory (cat : JSVal) : Option String :=
  match cat with
  | .str s =>
    if s = "" then none
    else
      let l := asciiLower s
      if containsSub l "hyper" then some "hypercar"
      else if containsSub l "super" then some "supercar"
      else if containsSub l "track" then some "track-only"
      else if containsSub l "muscle" then some "muscle car"
      else if containsSub l "hatch" then some "hatchback"
      else if containsSub l "suv" then some "suv"
      else if containsSub l "wagon" then some "wagon"
      else if containsSub l "coupe" then some "coupe"
      else if containsSub l "sedan" || containsSub l "saloon" then some "sedan"
      else some "other"
  | _ => none

/-- The make tiers used by both `normalizePrestige` and the rarity scorer. -/
def ultraMakes : List String := ["pagani", "bugatti", "koenigsegg", "rimac"]

/-- Upper-tier makes. -/
def highMakes : List String := ["ferrari", "lamborghini", "porsche", "aston martin", "mclaren"]

/-- Mid-tier makes. -/
def midMakes : List String := ["bmw", "mercedes-benz", "mercedes", "audi", "lexus", "dodge", "chevrolet"]

/-- The make → tier fall-back of `normalizePrestige` (the `if/else` chain
after the hint check), defaulting to `"low"`. -/
def makeTierLookup (m : String) : String :=
  if ultraMakes.contains m then "ultra"
  else if highMakes.contains m then "high"
  else if midMakes.contains m then "medium"
  else "low"

/-- `normalizePrestige(make, prestigeHint)`: lower-case both inputs (this can
raise for truthy non-strings), accept only the hints `"ultra"` and `"high"`
verbatim, otherwise look the make up, defaulting to `"low"`. -/
def normalizePrestige (make prestigeHint : JSVal) : Except JsErr String := do
  let hint ← jsOrEmptyLower prestigeHint
  let m ← jsOrEmptyLower make
  if hint = "ultra" ∨ hint = "high" then return hint
  return makeTierLookup m

/-- `normalizeRegion(country, regionHint)`: explicit hint first (any unknown
non-empty hint maps to `"Other"`), then the per-region country lists,
defaulting to `"Other"`. -/
def normalizeRegion (country regionHint : JSVal) : Except JsErr String := do
  let hint ← jsOrEmptyLower regionHint
  let c ← jsOrEmptyLower country
  if hint = "europe" ∨ hint = "eu" then return "Europe"
  if hint = "japan" ∨ hint = "asia" then return "Japan"
  if hint = "usa" ∨ hint = "united states" ∨ hint = "america" then return "USA"
  if hint ≠ "" then return "Other"
  if ["italy", "germany", "france", "uk", "united kingdom", "sweden", "spain"].contains c then
    return "Europe"
  if c = "japan" then return "Japan"
  if ["usa", "united states", "america"].contains c then return "USA"
  return "Other"

/-- `normalizeAspiration(engine, hint)`: prefer the (lower-cased) hint over
the engine text, then first-match-wins keyword search; unmatched input yields
absence. -/
def normalizeAspiration (engine hintV : JSVal) : Except JsErr (Option String) := do
  let h ← jsOrEmptyLower hintV
  let e ← jsOrEmptyLower engine
  let src := if h ≠ "" then h else e
  if src = "" then return none
  if containsSub src "electric" then return some "electric"
  if containsSub src "hybrid" then return some "hybrid"
  if containsSub src "twin-turbo" || containsSub src "bi-turbo" then return some "twin-turbo"
  if containsSub src "turbo" then return some "turbo"
  if containsSub src "supercharg" then return some "supercharged"
  if containsSub src "na" || containsSub src "naturally aspirated" then return some "na"
  return none

example : normalizeDrivetrain (.str "Quattro AWD system") = some "AWD" := by decide
example : normalizeCategory (.str "banana") = some "other" := by decide
example : normalizeCategory (.str "hypercar") = some "hypercar" := by decide
example : normalizePrestige (.str "Ferrari") (.str "low") = .ok "high" := by decide
example : normalizePrestige (.num 5) (.str "ultra") = .error .typeError := by decide
example : normalizeAspiration .null (.str "Twin-Turbo V8") = .ok (some "twin-turbo") := by decide
example : normalizeRegion (.str "Italy") .absent = .ok "Europe" := by decide

-- ------------------------------------------------------------------
-- Rarity scorer
-- ------------------------------------------------------------------

/-- Production-volume contribution of `computeRarityScore` (the inverse
bucket chain; no contribution when the field is absent). -/
def prodVolumeContribution : Option ℚ → ℚ
  | none => 0
  | some pn =>
    if pn < 10 then 10
    else if pn < 30 then 8
    else if pn < 100 then 6
    else if pn < 1000 then 4
    else if pn < 5000 then 3
    else if pn < 20000 then 2
    else if pn < 100000 then 1
    else 0

/-- 0–100 km/h contribution of `computeRarityScore`. -/
def accelContribution : Option ℚ → ℚ
  | none => 0
  | some z =>
    if z < 35 / 10 then 3
    else if z < 5 then 2
    else if z < 7 then 1
    else 0

/-- Horsepower contribution of `computeRarityScore`:
`Math.min(hp / 200, 3)`. -/
def hpContribution : Option ℚ → ℚ
  | none => 0
  | some hp => min (hp / 200) 3

/-- Make-prestige contribution of `computeRarityScore` (exact match of the
lower-cased make against the three fixed tiers). -/
def prestigeContribution (m : String) : ℚ :=
  if ultraMakes.contains m then 3
  else if highMakes.contains m then 2
  else if midMakes.contains m then 1
  else 0

/-- Category contribution of `computeRarityScore` (strict equality against
the normalized category). -/
def categoryContribution (cat : Option String) : ℚ :=
  if cat = some "hypercar" then 4
  else if cat = some "supercar" then 2
  else if cat = some "track-only" then 5
  else 0

/-- JS `Math.round` on the modelled (exact, NaN-free) numbers: round half
toward positive infinity. -/
def jsRound (q : ℚ) : ℤ := Rat.floor (q + 1 / 2)

/-- `computeRarityScore(car)`: sum the five contributions over the coerced
fields and round.  `(car.make || "").toLowerCase()` can raise a `TypeError`
for a truthy non-string make. -/
def computeRarityScore (car : Car) : Except JsErr ℤ := do
  let pn := toNumber car.production_numbers
  let zero100 := toNumber car.zero_to_hundred
  let hp := toNumber car.horsepower
  let mk ← jsOrEmptyLower car.make
  let cat := normalizeCategory car.vehicle_category
  let score := prodVolumeContribution pn + accelContribution zero100 + hpContribution hp +
    prestigeContribution mk + categoryContribution cat
  return jsRound score

/-- `getRarityTier(score)`: inclusive lower bounds, highest first. -/
def getRarityTier (score : ℤ) : String :=
  if score ≥ 18 then "Mythic"
  else if score ≥ 12 then "Legendary"
  else if score ≥ 8 then "Epic"
  else if score ≥ 5 then "Rare"
  else if score ≥ 3 then "Uncommon"
  else "Common"

-- ------------------------------------------------------------------
-- Derivation engine: slug and year range
-- ------------------------------------------------------------------

/-- Decimal digits of a natural number (most significant first); the core
fuel-based digit printer, which the kernel can evaluate. -/
def natDigits (n : ℕ) : List Char := Nat.toDigits 10 n

/-- JS number-to-string conversion for the values the pipeline prints
(integers, and finite decimal fractions).  Non-decimal rationals cannot
arise from JS floats; they are printed as `num/den` here, and no theorem
below depends on that case. -/
def jsNumToString (q : ℚ) : String :=
  let sign := if q < 0 then "-" else ""
  let n := q.num.natAbs
  if q.den = 1 then sign ++ String.mk (natDigits n)
  else
    match (List.range 40).find? (fun k => q.den ∣ 10 ^ k) with
    | some k =>
      let scaled := n * 10 ^ k / q.den
      let intPart := scaled / 10 ^ k
      let fracPart := scaled % 10 ^ k
      let fracDigits := natDigits fracPart
      let padded := List.replicate (k - fracDigits.length) '0' ++ fracDigits
      sign ++ String.mk (natDigits intPart) ++ "." ++ String.mk padded
    | none => sign ++ String.mk (natDigits n) ++ "/" ++ String.mk (natDigits q.den)

/-- JS `String(v)` for the values that can be joined into the slug base or a
template string. -/
def jsValToString : JSVal → String
  | .str s => s
  | .num q => jsNumToString q
  | .bool b => if b then "true" else "false"
  | .null => "null"
  | .absent => "undefined"

/-- NFD decomposition of the lower-case Latin-1 letters (the input is
already lower-cased when `normalize("NFD")` runs); other characters are kept
as they are.  `'̀'`-block combining marks are what the next regex
strips. -/
def nfdChar (c : Char) : List Char :=
  if c = 'à' then ['a', '̀'] else if c = 'á' then ['a', '́']
  else if c = 'â' then ['a', '̂'] else if c = 'ã' then ['a', '̃']
  else if c = 'ä' then ['a', '̈'] else if c = 'å' then ['a', '̊']
  else if c = 'ç' then ['c', '̧'] else if c = 'è' then ['e', '̀']
  else if c = 'é' then ['e', '́'] else if c = 'ê' then ['e', '̂']
  else if c = 'ë' then ['e', '̈'] else if c = 'ì' then ['i', '̀']
  else if c = 'í' then ['i', '́'] else if c = 'î' then ['i', '̂']
  else if c = 'ï' then ['i', '̈'] else if c = 'ñ' then ['n', '̃']
  else if c = 'ò' then ['o', '̀'] else if c = 'ó' then ['o', '́']
  else if c = 'ô' then ['o', '̂'] else if c = 'õ' then ['o', '̃']
  else if c = 'ö' then ['o', '̈'] else if c = 'ù' then ['u', '̀']
  else if c = 'ú' then ['u', '́'] else if c = 'û' then ['u', '̂']
  else if c = 'ü' then ['u', '̈'] else if c = 'ý' then ['y', '́']
  else if c = 'ÿ' then ['y', '̈'] else [c]

/-- Is `c` in the combining-mark range `[̀-ͯ]` stripped by
`slugify`? -/
def isCombiningMark (c : Char) : Bool := 0x300 ≤ c.toNat && c.toNat ≤ 0x36F

/-- Is `c` one of the characters `[a-z0-9]` kept by the slug regex? -/
def isSlugChar (c : Char) : Bool := c.isDigit || ('a' ≤ c && c ≤ 'z')

/-- Replace each maximal run of non-`[a-z0-9]` characters by a single
underscore (the `replace(/[^a-z0-9]+/g, "_")` step); `sep` records whether
the previous character was part of such a run. -/
def collapseNonSlug (sep : Bool) : List Char → List Char
  | [] => []
  | c :: rest =>
    if isSlugChar c then c :: collapseNonSlug false rest
    else if sep then collapseNonSlug true rest
    else '_' :: collapseNonSlug true rest

/-- `slugify(str)`: lower-case, NFD-decompose, strip combining marks,
collapse non-alphanumeric runs to `_`, trim leading/trailing underscores. -/
def slugify (s : String) : String :=
  let decomposed := (s.toList.map Char.toLower).flatMap nfdChar
  let stripped := decomposed.filter (fun c => ¬ isCombiningMark c)
  let collapsed := collapseNonSlug false stripped
  let trimmed := ((collapsed.dropWhile (· = '_')).reverse.dropWhile (· = '_')).reverse
  String.mk trimmed

/-- The slug base: present (truthy) identity fields joined by spaces, then
slugified. -/
def slugBase (car : Car) : String :=
  let parts :=
    (if truthy car.make then [car.make] else []) ++
    (if truthy car.model then [car.model] else []) ++
    (if truthy car.generation then [car.generation] else [])
  slugify (String.intercalate " " (parts.map jsValToString))

/-- `buildCarSlug(car)`: append `_<year_start>` whenever `year_start` is
truthy and `Number.isFinite` (a non-zero number here); otherwise return the
base, or absence when the base is empty. -/
def buildCarSlug (car : Car) : Option String :=
  let base := slugBase car
  let yearOk := match car.year_start with
    | .num q => q != 0
    | _ => false
  if yearOk then some (base ++ "_" ++ jsValToString car.year_start)
  else if base = "" then none else some base

example : slugify "!!!" = "" := by decide
example : slugify "Pagani Zonda" = "pagani_zonda" := by decide
example : buildCarSlug { make := .str "!!!", year_start := .num 1999 } = some "_1999" := by decide
example : buildCarSlug { make := .str "Ford", year_start := .num 0 } = some "ford" := by decide

-- ------------------------------------------------------------------
-- Year-range parsing (earlier handler) and derivation (pipeline)
-- ------------------------------------------------------------------

/-- Four leading digit characters, value and remainder. -/
def takeFourDigits : List Char → Option (ℕ × List Char)
  | a :: b :: c :: d :: rest =>
    if a.isDigit && b.isDigit && c.isDigit && d.isDigit then
      some (natOfDigits [a, b, c, d], rest)
    else none
  | _ => none

/-- Match `/(\d{4})\D+(\d{4})/` anchored at the head of the list: four
digits, then a maximal non-empty run of non-digits (greedy `\D+` cannot
backtrack here, since shortening it would put a non-digit under `\d`), then
four digits. -/
def matchYearsAt (l : List Char) : Option (ℕ × ℕ) := do
  let (ys, rest) ← takeFourDigits l
  match rest with
  | [] => none
  | c :: _ =>
    if c.isDigit then none
    else
      let (ye, _) ← takeFourDigits (rest.dropWhile (fun d => ¬ d.isDigit))
      some (ys, ye)

/-- First match of `/(\d{4})\D+(\d{4})/` in the list (the JS engine scans
start positions left to right). -/
def scanYearRange : List Char → Option (ℕ × ℕ)
  | [] => none
  | l@(_ :: t) => (matchYearsAt l).orElse (fun _ => scanYearRange t)

/-- The year parsing step of the earlier handler: when `year_start` or
`year_end` is falsy and `year_range` is a string, match the regex and
overwrite both years with the captured four-digit numbers. -/
def parseYearsFromRange (yr ysV yeV : JSVal) : JSVal × JSVal :=
  if ¬ truthy ysV ∨ ¬ truthy yeV then
    match yr with
    | .str s =>
      match scanYearRange s.toList with
      | some (a, b) => (.num a, .num b)
      | none => (ysV, yeV)
    | _ => (ysV, yeV)
  else (ysV, yeV)

/-- The `year_range` derivation block of `normalizeCarObject`: when
`year_range` is falsy and a year is truthy, build `"start-end"`, or the
single year, from the truthy years. -/
def deriveYearRange (yr ysV yeV : JSVal) : JSVal :=
  if ¬ truthy yr ∧ (truthy ysV ∨ truthy yeV) then
    let ys := if truthy ysV then ysV else .null
    let ye := if truthy yeV then yeV else .null
    if truthy ys ∧ truthy ye ∧ ys ≠ ye then
      .str (jsValToString ys ++ "-" ++ jsValToString ye)
    else if truthy ys then .str (jsValToString ys)
    else if truthy ye then .str (jsValToString ye)
    else yr
  else yr

example : scanYearRange "1999-2002".toList = some (1999, 2002) := by decide
example : scanYearRange "12345-6789".toList = some (2345, 6789) := by decide
example : scanYearRange "no years".toList = none := by decide
example : deriveYearRange .absent (.num 1999) (.num 2002) = .str "1999-2002" := by decide
example : deriveYearRange .absent (.num 1999) (.num 1999) = .str "1999" := by decide

-- ------------------------------------------------------------------
-- Response salvage
-- ------------------------------------------------------------------

/-- Index of the last occurrence of `c`, if any (JS `lastIndexOf`). -/
def lastIdxOf (l : List Char) (c : Char) : Option ℕ :=
  match l.reverse.findIdx? (· = c) with
  | some i => some (l.length - 1 - i)
  | none => none

/-- The brace-extraction step of the salvage logic: the inclusive slice from
the first `{` to the last `}` when the former strictly precedes the
latter (`start >= 0 && end > start`), and nothing otherwise. -/
def braceSlice (raw : String) : Option String :=
  let l := raw.toList
  match l.findIdx? (· = '{'), lastIdxOf l '}' with
  | some s, some e =>
    if s < e then some (String.mk ((l.drop s).take (e + 1 - s))) else none
  | _, _ => none

/-- The JSON salvage control flow of the handler, with the JS `JSON.parse`
primitive (external to this repository) abstracted as a partial parse
function: direct parse, then parse of the brace slice, then a terminal
error that carries the original raw text. -/
def salvageParse {α : Type} (parse : String → Option α) (raw : String) : Except String α :=
  match parse raw with
  | some v => .ok v
  | none =>
    match braceSlice raw with
    | some sub =>
      match parse sub with
      | some v => .ok v
      | none => .error raw
    | none => .error raw

example : braceSlice "Sure! \x7bmake: Ford\x7d Hope that helps!" = some "\x7bmake: Ford\x7d" := by decide
example : braceSlice "no braces at all" = none := by decide

-- ------------------------------------------------------------------
-- Normalization orchestrator
-- ------------------------------------------------------------------

/-- The pure part of `normalizeCarObject`: every field update that cannot
raise, given the results `p`, `r`, `a` of the three hint normalizers that
can.  Mirrors the source's assignment order; fields not assigned keep their
raw value (the `{ ...rawCar }` spread). -/
def normalizedMid (rawCar : Car) (p r : String) (a : Option String) : Car :=
  let ysV := jnum (toNumber rawCar.year_start)
  let yeV := jnum (toNumber rawCar.year_end)
  { rawCar with
    horsepower := jnum (toNumber rawCar.horsepower)
    torque_nm := jnum (toNumber rawCar.torque_nm)
    weight_kg := jnum (toNumber rawCar.weight_kg)
    zero_to_hundred := jnum (toNumber rawCar.zero_to_hundred)
    top_speed_kmh := jnum (toNumber rawCar.top_speed_kmh)
    production_numbers := jnum (toNumber rawCar.production_numbers)
    year_start := ysV
    year_end := yeV
    year_range := deriveYearRange rawCar.year_range ysV yeV
    drivetrain := jstr (normalizeDrivetrain rawCar.drivetrain)
    vehicle_category := jstr (normalizeCategory rawCar.vehicle_category)
    prestige_class := .str p
    region := .str r
    engine_aspiration := jstr a
    confidence := jnum (toNumber rawCar.confidence)
    real_world_confidence := jnum (toNumber rawCar.real_world_confidence)
    frame_suspicion := jnum (toNumber rawCar.frame_suspicion) }

/-- The final record: rarity score/tier written back, then the slug built
from the mutated record. -/
def normalizedFinal (rawCar : Car) (p r : String) (a : Option String) (s : ℤ) : Car :=
  let carMid := normalizedMid rawCar p r a
  let carScored := { carMid with
    rarity_score := .num (s : ℚ)
    rarity_tier := .str (getRarityTier s) }
  { carScored with car_slug := jstr (buildCarSlug carScored) }

/-- `normalizeCarObject(rawCar)`: coerce the numeric fields, derive
`year_range`, normalize the categorical fields (the prestige / region /
aspiration normalizers can raise on truthy non-string inputs), compute the
rarity score and tier, and build the slug. -/
def normalizeCarObject (rawCar : Car) : Except JsErr Car := do
  let p ← normalizePrestige rawCar.make rawCar.prestige_class
  let r ← normalizeRegion rawCar.country rawCar.region
  let a ← normalizeAspiration rawCar.engine rawCar.engine_aspiration
  let s ← computeRarityScore (normalizedMid rawCar p r a)
  return normalizedFinal rawCar p r a s

/-- The spec's worked scenario input. -/
def zondaRaw : Car :=
  { make := .str "Pagani", model := .str "Zonda", production_numbers := .str "40",
    horsepower := .str "555", vehicle_category := .str "hypercar",
    zero_to_hundred := .str "3.7 s" }

example : computeRarityScore (normalizedMid zondaRaw "ultra" "Other" none) = .ok 18 := by decide

-- ==================================================================
-- Claim theorems
-- ==================================================================

/-- C1 (counterexample): on the spec's worked scenario input the pipeline
does not produce score 16 / tier "Legendary" — the acceleration bucket for
3.7 s is the `< 5.0` one (worth 2, not 1), so the rounded total is 18 and
the tier is "Mythic". -/
theorem zonda_scenario_16_legendary_refuted :
    (normalizeCarObject zondaRaw).map (fun c => (c.rarity_score, c.rarity_tier)) =
      .ok (.num 18, .str "Mythic") ∧
    (JSVal.num 18 ≠ .num 16 ∧ JSVal.str "Mythic" ≠ .str "Legendary") := by
  refine ⟨by decide, by decide, by decide⟩

/-- C1 (amended): for the scenario input, normalization yields
`production_numbers = 40`; the contributions are production 6,
horsepower 2.775, make prestige 3, category 4 and acceleration 2
(3.7 < 5.0); the rounded total is 18, which the tier mapping sends to
"Mythic". -/
theorem zonda_scenario_score_18_mythic :
    toNumber zondaRaw.production_numbers = some 40 ∧
    prodVolumeContribution (toNumber zondaRaw.production_numbers) = 6 ∧
    hpContribution (toNumber zondaRaw.horsepower) = 555 / 200 ∧
    prestigeContribution (asciiLower "Pagani") = 3 ∧
    categoryContribution (normalizeCategory zondaRaw.vehicle_category) = 4 ∧
    accelContribution (toNumber zondaRaw.zero_to_hundred) = 2 ∧
    (555 : ℚ) / 200 = 2775 / 1000 ∧
    (normalizeCarObject zondaRaw).map
        (fun c => (c.production_numbers, c.rarity_score, c.rarity_tier)) =
      .ok (.num 40, .num 18, .str "Mythic") := by
  refine ⟨by decide, by decide, by decide, by decide, by decide, by decide, by decide, by decide⟩

/-- C7: the salvage routine fails exactly when the direct parse fails and
either no valid brace pair exists or the brace-slice parse fails too; and
every failure carries the original raw text. -/
theorem salvageParse_error_characterization {α : Type} (parse : String → Option α) (raw : String) :
    (∀ e, salvageParse parse raw = .error e → e = raw) ∧
    (salvageParse parse raw = .error raw ↔
      parse raw = none ∧
      (braceSlice raw = none ∨ ∃ sub, braceSlice raw = some sub ∧ parse sub = none)) := by
  unfold salvageParse
  cases hp : parse raw with
  | some v => simp
  | none =>
    cases hb : braceSlice raw with
    | none => simp
    | some sub =>
      cases hps : parse sub with
      | some v => simp [hps]
      | none => simp [hps]

/-- C7 (witness): a parse that always fails on a payload with no brace
characters at all yields the terminal error carrying the raw text. -/
theorem salvageParse_error_witness :
    salvageParse (fun _ => (none : Option Car)) "no braces at all" = .error "no braces at all" :=
  (salvageParse_error_characterization (fun _ => (none : Option Car)) "no braces at all").2.mpr
    ⟨rfl, Or.inl (by decide)⟩

-- ------------------------------------------------------------------
-- Totality (C2): where the pipeline can and cannot raise
-- ------------------------------------------------------------------

/-- Values on which `(v || "").toLowerCase()` cannot raise: strings and the
falsy values. -/
def strOrFalsy : JSVal → Bool
  | .str _ => true
  | .num q => q == 0
  | .bool b => !b
  | .null => true
  | .absent => true

theorem jsOrEmptyLower_ok {v : JSVal} (h : strOrFalsy v = true) :
    ∃ s, jsOrEmptyLower v = .ok s := by
  cases v with
  | str s => exact ⟨asciiLower s, rfl⟩
  | num q =>
    simp only [strOrFalsy, beq_iff_eq] at h
    exact ⟨"", by simp [jsOrEmptyLower, h]⟩
  | bool b =>
    simp only [strOrFalsy, Bool.not_eq_true'] at h
    exact ⟨"", by simp [jsOrEmptyLower, h]⟩
  | null => exact ⟨"", rfl⟩
  | absent => exact ⟨"", rfl⟩

theorem normalizePrestige_ok {mk h : JSVal} (hm : strOrFalsy mk = true)
    (hh : strOrFalsy h = true) : ∃ s, normalizePrestige mk h = .ok s := by
  obtain ⟨hs, hheq⟩ := jsOrEmptyLower_ok hh
  obtain ⟨ms, hmeq⟩ := jsOrEmptyLower_ok hm
  unfold normalizePrestige
  rw [hheq, hmeq]
  by_cases hcase : hs = "ultra" ∨ hs = "high" <;>
    simp [Except.instMonad, Bind.bind, Except.bind, hcase, pure, Except.pure]

theorem normalizeRegion_ok {c h : JSVal} (hc : strOrFalsy c = true)
    (hh : strOrFalsy h = true) : ∃ s, normalizeRegion c h = .ok s := by
  obtain ⟨hs, hheq⟩ := jsOrEmptyLower_ok hh
  obtain ⟨cs, hceq⟩ := jsOrEmptyLower_ok hc
  unfold normalizeRegion
  rw [hheq, hceq]
  simp only [Except.instMonad, Bind.bind, Except.bind, pure, Except.pure]
  repeat' split
  all_goals exact ⟨_, rfl⟩

theorem normalizeAspiration_ok {e h : JSVal} (he : strOrFalsy e = true)
    (hh : strOrFalsy h = true) : ∃ s, normalizeAspiration e h = .ok s := by
  obtain ⟨hs, hheq⟩ := jsOrEmptyLower_ok hh
  obtain ⟨es, heeq⟩ := jsOrEmptyLower_ok he
  unfold normalizeAspiration
  rw [hheq, heeq]
  simp only [Except.instMonad, Bind.bind, Except.bind, pure, Except.pure]
  repeat' split
  all_goals exact ⟨_, rfl⟩

theorem computeRarityScore_ok {car : Car} (hm : strOrFalsy car.make = true) :
    ∃ n, computeRarityScore car = .ok n := by
  obtain ⟨ms, hmeq⟩ := jsOrEmptyLower_ok hm
  unfold computeRarityScore
  rw [hmeq]
  exact ⟨_, rfl⟩

theorem normalizedMid_make (raw : Car) (p r : String) (a : Option String) :
    (normalizedMid raw p r a).make = raw.make := rfl

/-- C2 (amended): `normalize` cannot throw provided each field it feeds to
the JS `(v || "").toLowerCase()` idiom — `make`, `prestige_class`,
`country`, `region`, `engine`, `engine_aspiration` — is a string or falsy;
every other field may carry any well-typed value and silently normalizes to
absence on a type mismatch, and slug construction never fails. -/
theorem normalize_no_throw (raw : Car)
    (h1 : strOrFalsy raw.make = true) (h2 : strOrFalsy raw.prestige_class = true)
    (h3 : strOrFalsy raw.country = true) (h4 : strOrFalsy raw.region = true)
    (h5 : strOrFalsy raw.engine = true) (h6 : strOrFalsy raw.engine_aspiration = true) :
    ∃ c, normalizeCarObject raw = .ok c := by
  obtain ⟨p, hp⟩ := normalizePrestige_ok h1 h2
  obtain ⟨r, hr⟩ := normalizeRegion_ok h3 h4
  obtain ⟨a, ha⟩ := normalizeAspiration_ok h5 h6
  have hmm : strOrFalsy (normalizedMid raw p r a).make = true := by
    rw [normalizedMid_make]; exact h1
  obtain ⟨n, hn⟩ := computeRarityScore_ok hmm
  refine ⟨normalizedFinal raw p r a n, ?_⟩
  unfold normalizeCarObject
  rw [hp, hr, ha]
  simp only [Except.instMonad, Bind.bind, Except.bind, pure, Except.pure]
  rw [hn]

/-- C2 (witness): a record whose hint fields are strings or absent
normalizes without raising. -/
theorem normalize_no_throw_witness :
    ∃ c, normalizeCarObject { make := .str "Pagani" } = .ok c :=
  normalize_no_throw _ (by decide) (by decide) (by decide) (by decide) (by decide) (by decide)

/-- C2 (counterexample): a well-typed record — every field a string,
number, boolean, null or absent — on which `normalize` throws: a truthy
non-string `make` (or `prestige_class`) reaches `.toLowerCase()` and raises
a `TypeError`. -/
theorem normalize_throws_on_numeric_make :
    normalizeCarObject { make := .num 123 } = .error .typeError ∧
    normalizeCarObject { prestige_class := .bool true } = .error .typeError := by
  refine ⟨by decide, by decide⟩

-- ------------------------------------------------------------------
-- Shape of a successful normalization
-- ------------------------------------------------------------------

theorem normalizeCarObject_ok_elim {raw c : Car} (h : normalizeCarObject raw = .ok c) :
    ∃ p r a s, normalizePrestige raw.make raw.prestige_class = .ok p ∧
      normalizeRegion raw.country raw.region = .ok r ∧
      normalizeAspiration raw.engine raw.engine_aspiration = .ok a ∧
      computeRarityScore (normalizedMid raw p r a) = .ok s ∧
      c = normalizedFinal raw p r a s := by
  unfold normalizeCarObject at h
  cases hp : normalizePrestige raw.make raw.prestige_class with
  | error e =>
    rw [hp] at h
    simp [Except.instMonad, Bind.bind, Except.bind] at h
  | ok p =>
    rw [hp] at h
    simp only [Except.instMonad, Bind.bind, Except.bind] at h
    cases hr : normalizeRegion raw.country raw.region with
    | error e => rw [hr] at h; simp at h
    | ok r =>
      rw [hr] at h
      dsimp only at h
      cases ha : normalizeAspiration raw.engine raw.engine_aspiration with
      | error e => rw [ha] at h; simp at h
      | ok a =>
        rw [ha] at h
        dsimp only at h
        cases hs : computeRarityScore (normalizedMid raw p r a) with
        | error e => rw [hs] at h; simp [pure, Except.pure] at h
        | ok s =>
          rw [hs] at h
          simp only [pure, Except.pure, Except.ok.injEq] at h
          exact ⟨p, r, a, s, rfl, rfl, rfl, hs, h.symm⟩

-- ------------------------------------------------------------------
-- C3: confidence fields
-- ------------------------------------------------------------------

/-- C3 (amended): the orchestrator only coerces `confidence`,
`real_world_confidence` and `frame_suspicion` with `toNumber` — each comes
out absent or a number, but is NOT clamped to [0,1]; the clamping function
`clamp01` exists only in the other handler variant, and its output is
indeed always absent or within [0,1]. -/
theorem confidence_fields_coerced_unclamped :
    (∀ raw c, normalizeCarObject raw = .ok c →
      c.confidence = jnum (toNumber raw.confidence) ∧
      c.real_world_confidence = jnum (toNumber raw.real_world_confidence) ∧
      c.frame_suspicion = jnum (toNumber raw.frame_suspicion) ∧
      (c.confidence = .null ∨ ∃ q, c.confidence = .num q) ∧
      (c.real_world_confidence = .null ∨ ∃ q, c.real_world_confidence = .num q) ∧
      (c.frame_suspicion = .null ∨ ∃ q, c.frame_suspicion = .num q)) ∧
    (∀ v, clamp01 v = none ∨ ∃ q, clamp01 v = some q ∧ 0 ≤ q ∧ q ≤ 1) := by
  constructor
  · intro raw c h
    obtain ⟨p, r, a, s, -, -, -, -, rfl⟩ := normalizeCarObject_ok_elim h
    refine ⟨rfl, rfl, rfl, ?_, ?_, ?_⟩ <;>
    · show jnum _ = _ ∨ ∃ q, jnum _ = _
      cases toNumber _ with
      | none => exact Or.inl rfl
      | some q => exact Or.inr ⟨q, rfl⟩
  · intro v
    unfold clamp01
    cases hv : normalizeNumber v with
    | none => exact Or.inl rfl
    | some q =>
      right
      by_cases h1 : q < 0
      · exact ⟨0, by simp [h1], le_refl 0, by norm_num⟩
      · by_cases h2 : q > 1
        · exact ⟨1, by simp [h1, h2], by norm_num, le_refl 1⟩
        · exact ⟨q, by simp [h1, h2], by linarith, by linarith⟩

/-- A raw record whose confidence is the out-of-range number 5. -/
def confRaw : Car := { confidence := .num 5 }

/-- The normalized output for `confRaw`, spelled out. -/
def confNormalized : Car :=
  { horsepower := .null, torque_nm := .null, weight_kg := .null, zero_to_hundred := .null,
    top_speed_kmh := .null, production_numbers := .null, year_start := .null, year_end := .null,
    drivetrain := .null, vehicle_category := .null,
    prestige_class := .str "low", region := .str "Other", engine_aspiration := .null,
    confidence := .num 5, real_world_confidence := .null, frame_suspicion := .null,
    rarity_score := .num 0, rarity_tier := .str "Common", car_slug := .null }

/-- C3 (counterexample): a confidence of 5 passes through normalization
unchanged — the normalized record's `confidence` is not in [0,1]. -/
theorem confidence_above_one_survives :
    normalizeCarObject confRaw = .ok confNormalized ∧
    confNormalized.confidence = .num 5 ∧ ¬ ((5 : ℚ) ≤ 1) :=
  ⟨by decide, rfl, by norm_num⟩

/-- C3 (witness): the amended theorem applied to `confRaw`. -/
theorem confidence_fields_witness :
    confNormalized.confidence = jnum (toNumber confRaw.confidence) ∧
    (clamp01 (.num 5) = none ∨ ∃ q, clamp01 (.num 5) = some q ∧ 0 ≤ q ∧ q ≤ 1) :=
  ⟨(confidence_fields_coerced_unclamped.1 confRaw confNormalized (by decide)).1,
   confidence_fields_coerced_unclamped.2 (.num 5)⟩

-- ------------------------------------------------------------------
-- C10: untouched fields pass through
-- ------------------------------------------------------------------

/-- C10: every field the orchestrator does not explicitly normalize or
derive — `make`, `model`, `generation`, `body_style`, `engine`, `country`,
`wiki_url`, `is_screen_photo`, `environment`, `notes`, `rarity_reason` —
appears in the output with exactly its raw input value. -/
theorem untouched_fields_passthrough (raw c : Car) (h : normalizeCarObject raw = .ok c) :
    c.make = raw.make ∧ c.model = raw.model ∧ c.generation = raw.generation ∧
    c.body_style = raw.body_style ∧ c.engine = raw.engine ∧ c.country = raw.country ∧
    c.wiki_url = raw.wiki_url ∧ c.is_screen_photo = raw.is_screen_photo ∧
    c.environment = raw.environment ∧ c.notes = raw.notes ∧
    c.rarity_reason = raw.rarity_reason := by
  obtain ⟨p, r, a, s, -, -, -, -, rfl⟩ := normalizeCarObject_ok_elim h
  exact ⟨rfl, rfl, rfl, rfl, rfl, rfl, rfl, rfl, rfl, rfl, rfl⟩

/-- A raw record carrying values in the untouched fields. -/
def passRaw : Car :=
  { notes := .str "clues", wiki_url := .str "https://example.org/w", body_style := .str "coupe",
    is_screen_photo := .bool false, environment := .str "street", rarity_reason := .str "rare" }

/-- The normalized output for `passRaw`, spelled out. -/
def passNormalized : Car :=
  { notes := .str "clues", wiki_url := .str "https://example.org/w", body_style := .str "coupe",
    is_screen_photo := .bool false, environment := .str "street", rarity_reason := .str "rare",
    horsepower := .null, torque_nm := .null, weight_kg := .null, zero_to_hundred := .null,
    top_speed_kmh := .null, production_numbers := .null, year_start := .null, year_end := .null,
    drivetrain := .null, vehicle_category := .null,
    prestige_class := .str "low", region := .str "Other", engine_aspiration := .null,
    confidence := .null, real_world_confidence := .null, frame_suspicion := .null,
    rarity_score := .num 0, rarity_tier := .str "Common", car_slug := .null }

/-- C10 (witness): the pass-through theorem applied to `passRaw`. -/
theorem untouched_fields_witness :
    passNormalized.make = passRaw.make ∧ passNormalized.model = passRaw.model ∧
    passNormalized.generation = passRaw.generation ∧
    passNormalized.body_style = passRaw.body_style ∧ passNormalized.engine = passRaw.engine ∧
    passNormalized.country = passRaw.country ∧ passNormalized.wiki_url = passRaw.wiki_url ∧
    passNormalized.is_screen_photo = passRaw.is_screen_photo ∧
    passNormalized.environment = passRaw.environment ∧ passNormalized.notes = passRaw.notes ∧
    passNormalized.rarity_reason = passRaw.rarity_reason :=
  untouched_fields_passthrough passRaw passNormalized (by decide)

-- ------------------------------------------------------------------
-- C4: unmatched inputs
-- ------------------------------------------------------------------

/-- Does the (upper-cased) input hit any drivetrain keyword rule? -/
def drivetrainKeywordHit (s : String) : Bool :=
  containsSub (asciiUpper s) "AWD" || containsSub (asciiUpper s) "4MATIC" ||
  containsSub (asciiUpper s) "QUATTRO" || containsSub (asciiUpper s) "4WD" ||
  containsSub (asciiUpper s) "RWD" || containsSub (asciiUpper s) "REAR" ||
  containsSub (asciiUpper s) "FWD" || containsSub (asciiUpper s) "FRONT"

/-- Does the (already lower-cased) source hit any aspiration keyword rule? -/
def aspirationKeywordHit (src : String) : Bool :=
  containsSub src "electric" || containsSub src "hybrid" || containsSub src "twin-turbo" ||
  containsSub src "bi-turbo" || containsSub src "turbo" || containsSub src "supercharg" ||
  containsSub src "na" || containsSub src "naturally aspirated"

/-- Does the (lower-cased) input hit any category keyword rule? -/
def categoryKeywordHit (s : String) : Bool :=
  containsSub (asciiLower s) "hyper" || containsSub (asciiLower s) "super" ||
  containsSub (asciiLower s) "track" || containsSub (asciiLower s) "muscle" ||
  containsSub (asciiLower s) "hatch" || containsSub (asciiLower s) "suv" ||
  containsSub (asciiLower s) "wagon" || containsSub (asciiLower s) "coupe" ||
  containsSub (asciiLower s) "sedan" || containsSub (asciiLower s) "saloon"

theorem asciiLower_ne_empty {s : String} (h : s ≠ "") : asciiLower s ≠ "" := by
  intro hc
  apply h
  apply String.ext
  have hlen := congrArg (fun t => t.data.length) hc
  simp [asciiLower] at hlen
  exact List.eq_nil_of_length_eq_zero hlen

/-- C4 (amended): an absent or keyword-free input yields absence from the
drivetrain and engine-aspiration normalizers; the category normalizer,
however, sends every keyword-free non-empty string to the default
`"other"`, and yields absence only for absent / non-string / empty
input. -/
theorem unmatched_input_yields_absence :
    (∀ s : String, drivetrainKeywordHit s = false → normalizeDrivetrain (.str s) = none) ∧
    (∀ v : JSVal, (∀ s, v ≠ .str s) → normalizeDrivetrain v = none ∧ normalizeCategory v = none) ∧
    (∀ s : String, aspirationKeywordHit (asciiLower s) = false →
      normalizeAspiration (.str s) .null = .ok none ∧
      normalizeAspiration .null (.str s) = .ok none) ∧
    normalizeAspiration .null .null = .ok none ∧
    (∀ s : String, s ≠ "" → categoryKeywordHit s = false →
      normalizeCategory (.str s) = some "other") := by
  refine ⟨?_, ?_, ?_, by decide, ?_⟩
  · intro s hmiss
    simp only [drivetrainKeywordHit, Bool.or_eq_false_iff] at hmiss
    obtain ⟨⟨⟨⟨⟨⟨⟨c1, c2⟩, c3⟩, c4⟩, c5⟩, c6⟩, c7⟩, c8⟩ := hmiss
    by_cases hse : s = ""
    · simp [normalizeDrivetrain, hse]
    · simp [normalizeDrivetrain, hse, c1, c2, c3, c4, c5, c6, c7, c8]
  · intro v hv
    cases v with
    | str s => exact absurd rfl (hv s)
    | num q => exact ⟨rfl, rfl⟩
    | bool b => exact ⟨rfl, rfl⟩
    | null => exact ⟨rfl, rfl⟩
    | absent => exact ⟨rfl, rfl⟩
  · intro s hmiss
    simp only [aspirationKeywordHit, Bool.or_eq_false_iff] at hmiss
    obtain ⟨⟨⟨⟨⟨⟨⟨c1, c2⟩, c3⟩, c4⟩, c5⟩, c6⟩, c7⟩, c8⟩ := hmiss
    by_cases hse : asciiLower s = "" <;>
      constructor <;>
        simp [normalizeAspiration, jsOrEmptyLower, Except.instMonad, Bind.bind, Except.bind,
          pure, Except.pure, hse, c1, c2, c3, c4, c5, c6, c7, c8]
  · intro s hse hmiss
    simp only [categoryKeywordHit, Bool.or_eq_false_iff] at hmiss
    obtain ⟨⟨⟨⟨⟨⟨⟨⟨⟨c1, c2⟩, c3⟩, c4⟩, c5⟩, c6⟩, c7⟩, c8⟩, c9⟩, c10⟩ := hmiss
    simp [normalizeCategory, hse, c1, c2, c3, c4, c5, c6, c7, c8, c9, c10]

/-- C4 (counterexample): a non-empty string matching no category keyword
rule normalizes to the default `"other"`, not to absence. -/
theorem category_unmatched_defaults_to_other :
    normalizeCategory (.str "banana") = some "other" ∧
    normalizeCategory (.str "banana") ≠ none :=
  ⟨by decide, by decide⟩

/-- C4 (witness): the amended theorem applied to concrete keyword-free
inputs. -/
theorem unmatched_input_witness :
    normalizeDrivetrain (.str "gearbox") = none ∧
    normalizeDrivetrain .null = none ∧
    normalizeAspiration .null (.str "diesel") = .ok none ∧
    normalizeCategory (.str "banana") = some "other" :=
  ⟨unmatched_input_yields_absence.1 "gearbox" (by decide),
   (unmatched_input_yields_absence.2.1 .null (fun s h => JSVal.noConfusion h)).1,
   (unmatched_input_yields_absence.2.2.1 "diesel" (by decide)).2,
   unmatched_input_yields_absence.2.2.2.2 "banana" (by decide) (by decide)⟩

-- ------------------------------------------------------------------
-- C6: prestige hints
-- ------------------------------------------------------------------

theorem makeTierLookup_mem (m : String) :
    makeTierLookup m ∈ (["ultra", "high", "medium", "low"] : List String) := by
  unfold makeTierLookup
  split
  · simp
  · split
    · simp
    · split <;> simp

/-- C6 (amended): for string-or-falsy inputs the prestige normalizer never
raises and never yields absence; only the hints `"ultra"` and `"high"`
(case-insensitively) are accepted verbatim, while `"low"` and `"medium"`
hints are ignored and the tier is derived from the fixed make table with
default `"low"`. -/
theorem prestige_hint_behavior (mk h : JSVal) (hm : strOrFalsy mk = true)
    (hh : strOrFalsy h = true) :
    ∃ t, normalizePrestige mk h = .ok t ∧
      t ∈ (["ultra", "high", "medium", "low"] : List String) ∧
      ∀ hint m, jsOrEmptyLower h = .ok hint → jsOrEmptyLower mk = .ok m →
        t = if hint = "ultra" ∨ hint = "high" then hint else makeTierLookup m := by
  obtain ⟨hs, hheq⟩ := jsOrEmptyLower_ok hh
  obtain ⟨ms, hmeq⟩ := jsOrEmptyLower_ok hm
  refine ⟨if hs = "ultra" ∨ hs = "high" then hs else makeTierLookup ms, ?_, ?_, ?_⟩
  · unfold normalizePrestige
    rw [hheq, hmeq]
    by_cases hcase : hs = "ultra" ∨ hs = "high" <;>
      simp [Except.instMonad, Bind.bind, Except.bind, hcase, pure, Except.pure]
  · by_cases hcase : hs = "ultra" ∨ hs = "high"
    · rcases hcase with hu | hu <;> simp [hu]
    · simp only [hcase, if_false]
      exact makeTierLookup_mem ms
  · intro hint m hhint hmk
    rw [hheq] at hhint
    rw [hmeq] at hmk
    cases hhint
    cases hmk
    rfl

/-- C6 (counterexample): the hint `"low"` is a recognized tier name but is
not returned verbatim — the make table wins; and a truthy non-string make
even raises, despite an `"ultra"` hint. -/
theorem prestige_low_hint_not_verbatim :
    normalizePrestige (.str "Ferrari") (.str "low") = .ok "high" ∧
    (Except.ok "high" : Except JsErr String) ≠ .ok "low" ∧
    normalizePrestige (.num 5) (.str "ultra") = .error .typeError :=
  ⟨by decide, by decide, by decide⟩

/-- C6 (witness): the amended theorem applied to a make outside the table
with a `"medium"` hint. -/
theorem prestige_hint_witness :
    ∃ t, normalizePrestige (.str "Toyota") (.str "medium") = .ok t ∧
      t ∈ (["ultra", "high", "medium", "low"] : List String) ∧
      ∀ hint m, jsOrEmptyLower (.str "medium") = .ok hint →
        jsOrEmptyLower (.str "Toyota") = .ok m →
        t = if hint = "ultra" ∨ hint = "high" then hint else makeTierLookup m :=
  prestige_hint_behavior (.str "Toyota") (.str "medium") (by decide) (by decide)

-- ------------------------------------------------------------------
-- C8: the rarity score and tier
-- ------------------------------------------------------------------

theorem toNumber_jnum (o : Option ℚ) : toNumber (jnum o) = o := by
  cases o <;> rfl

theorem computeRarityScore_ok_elim {car : Car} {s : ℤ}
    (h : computeRarityScore car = .ok s) :
    ∃ mk, jsOrEmptyLower car.make = .ok mk ∧
      s = jsRound (prodVolumeContribution (toNumber car.production_numbers) +
        accelContribution (toNumber car.zero_to_hundred) +
        hpContribution (toNumber car.horsepower) +
        prestigeContribution mk +
        categoryContribution (normalizeCategory car.vehicle_category)) := by
  unfold computeRarityScore at h
  cases hm : jsOrEmptyLower car.make with
  | error e =>
    rw [hm] at h
    simp [Except.instMonad, Bind.bind, Except.bind] at h
  | ok mk =>
    rw [hm] at h
    simp only [Except.instMonad, Bind.bind, Except.bind, pure, Except.pure,
      Except.ok.injEq] at h
    exact ⟨mk, rfl, h.symm⟩

theorem prodVolumeContribution_nonneg (o : Option ℚ) : 0 ≤ prodVolumeContribution o := by
  unfold prodVolumeContribution
  repeat' split
  all_goals norm_num

theorem accelContribution_nonneg (o : Option ℚ) : 0 ≤ accelContribution o := by
  unfold accelContribution
  repeat' split
  all_goals norm_num

theorem prestigeContribution_nonneg (m : String) : 0 ≤ prestigeContribution m := by
  unfold prestigeContribution
  repeat' split
  all_goals norm_num

theorem categoryContribution_nonneg (o : Option String) : 0 ≤ categoryContribution o := by
  unfold categoryContribution
  repeat' split
  all_goals norm_num

theorem jsRound_nonneg {q : ℚ} (h : 0 ≤ q) : 0 ≤ jsRound q := by
  unfold jsRound
  rw [Rat.le_floor]
  push_cast
  linarith

theorem getRarityTier_mem (n : ℤ) :
    getRarityTier n ∈
      (["Common", "Uncommon", "Rare", "Epic", "Legendary", "Mythic"] : List String) := by
  unfold getRarityTier
  repeat' split
  all_goals simp

/-- C8 (amended): the `rarity_score` written by `normalize` is always an
integer, deterministically computed from the normalized fields, and
`rarity_tier` is exactly `getRarityTier` of it, valued in the six-level
enumeration; the score is non-negative whenever the coerced horsepower is
not negative (a negative horsepower makes the `min(hp/200, 3)` term, and
hence possibly the score, negative). -/
theorem rarity_score_integer_and_tier (raw c : Car) (h : normalizeCarObject raw = .ok c) :
    ∃ n : ℤ, c.rarity_score = .num (n : ℚ) ∧ c.rarity_tier = .str (getRarityTier n) ∧
      getRarityTier n ∈
        (["Common", "Uncommon", "Rare", "Epic", "Legendary", "Mythic"] : List String) ∧
      ((∀ q, toNumber raw.horsepower = some q → 0 ≤ q) → 0 ≤ n) := by
  obtain ⟨p, r, a, s, -, -, -, hs, rfl⟩ := normalizeCarObject_ok_elim h
  refine ⟨s, rfl, rfl, getRarityTier_mem s, ?_⟩
  intro hhp
  obtain ⟨mk, -, hsum⟩ := computeRarityScore_ok_elim hs
  have hhp' : 0 ≤ hpContribution (toNumber (normalizedMid raw p r a).horsepower) := by
    have : (normalizedMid raw p r a).horsepower = jnum (toNumber raw.horsepower) := rfl
    rw [this, toNumber_jnum]
    cases hcase : toNumber raw.horsepower with
    | none => norm_num [hpContribution]
    | some q =>
      have hq := hhp q hcase
      unfold hpContribution
      refine le_min (by positivity) (by norm_num)
  rw [hsum]
  refine jsRound_nonneg ?_
  have h1 := prodVolumeContribution_nonneg (toNumber (normalizedMid raw p r a).production_numbers)
  have h2 := accelContribution_nonneg (toNumber (normalizedMid raw p r a).zero_to_hundred)
  have h3 := prestigeContribution_nonneg mk
  have h4 := categoryContribution_nonneg (normalizeCategory (normalizedMid raw p r a).vehicle_category)
  linarith

/-- A raw record with a (well-typed) negative horsepower. -/
def negHpRaw : Car := { horsepower := .num (-2000) }

/-- The normalized output for `negHpRaw`, spelled out: the score is the
negative integer −10. -/
def negHpNormalized : Car :=
  { horsepower := .num (-2000), torque_nm := .null, weight_kg := .null, zero_to_hundred := .null,
    top_speed_kmh := .null, production_numbers := .null, year_start := .null, year_end := .null,
    drivetrain := .null, vehicle_category := .null,
    prestige_class := .str "low", region := .str "Other", engine_aspiration := .null,
    confidence := .null, real_world_confidence := .null, frame_suspicion := .null,
    rarity_score := .num (-10), rarity_tier := .str "Common", car_slug := .null }

/-- C8 (counterexample): `rarity_score` is not always non-negative — a
horsepower of −2000 yields the score −10. -/
theorem rarity_score_negative_example :
    normalizeCarObject negHpRaw = .ok negHpNormalized ∧
    negHpNormalized.rarity_score = .num (-10) ∧ ¬ (0 ≤ (-10 : ℚ)) :=
  ⟨by decide, rfl, by norm_num⟩

/-- C8 (witness): the amended theorem applied to `confRaw`. -/
theorem rarity_score_integer_witness :
    ∃ n : ℤ, confNormalized.rarity_score = .num (n : ℚ) ∧
      confNormalized.rarity_tier = .str (getRarityTier n) ∧
      getRarityTier n ∈
        (["Common", "Uncommon", "Rare", "Epic", "Legendary", "Mythic"] : List String) ∧
      ((∀ q, toNumber confRaw.horsepower = some q → 0 ≤ q) → 0 ≤ n) :=
  rarity_score_integer_and_tier confRaw confNormalized (by decide)

-- ------------------------------------------------------------------
-- C5: year-range round trip
-- ------------------------------------------------------------------

/-- C5 (amended): for a string whose first regex match captures two
distinct, non-zero four-digit numbers, parsing years out of `year_range`
and re-deriving `year_range` from them produces exactly
`"<start>-<end>"`, which contains the two numbers in the same order.
(Equal captures collapse to a single year, and a `0000` capture is falsy
and is dropped, so those cases are excluded.) -/
theorem year_range_roundtrip (s : String) (a b : ℕ)
    (hscan : scanYearRange s.toList = some (a, b)) (hne : a ≠ b)
    (ha : 0 < a) (hb : 0 < b) :
    parseYearsFromRange (.str s) .null .null = (.num (a : ℚ), .num (b : ℚ)) ∧
    deriveYearRange .absent (.num (a : ℚ)) (.num (b : ℚ)) =
      .str (jsNumToString (a : ℚ) ++ "-" ++ jsNumToString (b : ℚ)) ∧
    ∃ x y z, jsNumToString (a : ℚ) ++ "-" ++ jsNumToString (b : ℚ) =
      x ++ jsNumToString (a : ℚ) ++ y ++ jsNumToString (b : ℚ) ++ z := by
  have ha' : ((a : ℚ)) ≠ 0 := by exact_mod_cast ha.ne'
  have hb' : ((b : ℚ)) ≠ 0 := by exact_mod_cast hb.ne'
  have hne' : ((a : ℚ)) ≠ (b : ℚ) := by exact_mod_cast hne
  have hscan' : scanYearRange s.data = some (a, b) := hscan
  refine ⟨?_, ?_, "", "-", "", ?_⟩
  · simp [parseYearsFromRange, truthy, hscan, hscan']
  · simp [deriveYearRange, truthy, jsValToString, ha', hb', hne']
  · simp

/-- C5 (witness): the round trip on `"1999-2002"`. -/
theorem year_range_roundtrip_witness :
    parseYearsFromRange (.str "1999-2002") .null .null =
      (.num ((1999 : ℕ) : ℚ), .num ((2002 : ℕ) : ℚ)) ∧
    deriveYearRange .absent (.num ((1999 : ℕ) : ℚ)) (.num ((2002 : ℕ) : ℚ)) =
      .str (jsNumToString ((1999 : ℕ) : ℚ) ++ "-" ++ jsNumToString ((2002 : ℕ) : ℚ)) ∧
    ∃ x y z, jsNumToString ((1999 : ℕ) : ℚ) ++ "-" ++ jsNumToString ((2002 : ℕ) : ℚ) =
      x ++ jsNumToString ((1999 : ℕ) : ℚ) ++ y ++ jsNumToString ((2002 : ℕ) : ℚ) ++ z :=
  year_range_roundtrip "1999-2002" 1999 2002 (by decide) (by decide) (by decide) (by decide)

/-- C5 (counterexample): when the two captured four-digit numbers are
equal, the re-derived `year_range` is the single year `"1999"`, which does
not contain the two four-digit numbers in order (its length is 4 < 8). -/
theorem year_range_roundtrip_equal_years_fails :
    parseYearsFromRange (.str "1999 to 1999") .null .null = (.num 1999, .num 1999) ∧
    deriveYearRange .absent (.num 1999) (.num 1999) = .str "1999" ∧
    ¬ ∃ x y z : String, "1999" = x ++ "1999" ++ y ++ "1999" ++ z := by
  refine ⟨by decide, by decide, ?_⟩
  rintro ⟨x, y, z, heq⟩
  have hlen := congrArg String.length heq
  simp only [String.length_append] at hlen
  rw [show ("1999" : String).length = 4 from rfl] at hlen
  omega

-- ------------------------------------------------------------------
-- C9: the slug
-- ------------------------------------------------------------------

/-- C9 (amended): with a truthy finite `year_start`, the slug is always
`base ++ "_" ++ year` — even when the base is empty; the base-empty →
absent rule applies only when `year_start` is falsy or not a number, and a
zero `year_start` (a finite integer) is falsy and is not appended. -/
theorem buildCarSlug_characterization :
    (∀ (car : Car) (q : ℚ), car.year_start = .num q →
      (q ≠ 0 → buildCarSlug car = some (slugBase car ++ "_" ++ jsNumToString q)) ∧
      (q = 0 → slugBase car = "" → buildCarSlug car = none) ∧
      (q = 0 → slugBase car ≠ "" → buildCarSlug car = some (slugBase car))) ∧
    (∀ car : Car, (∀ q, car.year_start ≠ .num q) →
      (slugBase car = "" → buildCarSlug car = none) ∧
      (slugBase car ≠ "" → buildCarSlug car = some (slugBase car))) := by
  constructor
  · intro car q hys
    refine ⟨fun hq => ?_, fun hq hb => ?_, fun hq hb => ?_⟩
    · simp [buildCarSlug, hys, hq, jsValToString]
    · simp [buildCarSlug, hys, hq, hb]
    · simp [buildCarSlug, hys, hq, hb]
  · intro car hys
    have hmatch : (match car.year_start with
        | JSVal.num q => q != 0
        | _ => false) = false := by
      cases hcase : car.year_start with
      | num q => exact absurd hcase (hys q)
      | str s => rfl
      | bool b => rfl
      | null => rfl
      | absent => rfl
    constructor <;> intro hb <;> simp [buildCarSlug, hmatch, hb]

/-- A record with a non-empty slug base and a truthy integer year. -/
def mazdaCar : Car := { make := .str "Mazda", year_start := .num 1990 }

/-- C9 (witness): the slug characterization applied to `mazdaCar`. -/
theorem buildCarSlug_witness :
    buildCarSlug mazdaCar = some (slugBase mazdaCar ++ "_" ++ jsNumToString 1990) ∧
    slugBase mazdaCar = "mazda" :=
  ⟨(buildCarSlug_characterization.1 mazdaCar 1990 rfl).1 (by norm_num), by decide⟩

/-- C9 (counterexample): an input whose slugified base is empty but whose
`year_start` is present still gets a slug (`"_1999"`, not absence); and a
zero `year_start` — a finite integer — is not appended at all. -/
theorem slug_empty_base_with_year :
    slugBase { make := .str "!!!", year_start := .num 1999 } = "" ∧
    buildCarSlug { make := .str "!!!", year_start := .num 1999 } = some "_1999" ∧
    buildCarSlug { make := .str "Ford", year_start := .num 0 } = some "ford" ∧
    ("ford" : String) ≠ "ford" ++ "_" ++ jsNumToString 0 := by
  refine ⟨by decide, by decide, by decide, by decide⟩
